import Mathlib

/-!
Verification of the Nova multimodal embedding batch pipeline.

The Python sources are shallowly embedded here:
* `src/Lambda/vector_embed_lambda.py` — module initialization and `lambda_handler`;
* `src/CodeBuilder/batch_processor.py` — module initialization, `create_manifest_file`,
  `create_s3_batch_job` and the `__main__` flow.

External AWS services (S3, Bedrock runtime, S3 Vectors, S3 Control) are modelled as
oracles supplied through environment structures; every call the embedded code makes to
such an oracle is also recorded in an explicit call trace, so that claims of the form
"no model call is attempted" can be stated.  Python byte strings are `List Nat`
(one entry per byte), Python `str` is Lean `String`.
-/

namespace NovaEmbed

/-! ### Python string primitives used by the sources -/

/-- Python `s.startswith(p)`. -/
def pyStartswith (s p : String) : Bool := p.toList.isPrefixOf s.toList

/-- Python `s.endswith(p)`. -/
def pyEndswith (s p : String) : Bool := p.toList.isSuffixOf s.toList

/-- Python `s.lower()`.  `Char.toLower` lowercases ASCII letters; CPython's `str.lower`
agrees with it on ASCII input, which is the only input the sources apply it to. -/
def pyLower (s : String) : String := String.mk (s.toList.map Char.toLower)

/-- Python `s.strip('"')`: remove every leading and trailing `"` character. -/
def pyStripQuotes (s : String) : String :=
  String.mk (((s.toList.dropWhile (· = '"')).reverse.dropWhile (· = '"')).reverse)

/-- Worker for Python `s.split(sep)` with a non-empty separator `c0 :: sepRest`:
non-overlapping matches, scanned left to right.  `cur` holds the current segment
reversed; `fuel` only serves structural recursion and any `fuel ≥ s.length` gives
the same answer. -/
def pySplitAux (c0 : Char) (sepRest : List Char) : Nat → List Char → List Char → List (List Char)
  | _, [], cur => [cur.reverse]
  | 0, s, cur => [cur.reverse ++ s]
  | fuel + 1, c :: rest, cur =>
    if c = c0 ∧ sepRest.isPrefixOf rest then
      cur.reverse :: pySplitAux c0 sepRest fuel (rest.drop sepRest.length) []
    else
      pySplitAux c0 sepRest fuel rest (c :: cur)

/-- Python `s.split(sep)` for the non-empty separator `c0 :: sepRest`. -/
def pySplit (c0 : Char) (sepRest : List Char) (s : List Char) : List (List Char) :=
  pySplitAux c0 sepRest s.length s []

/-- `task['s3BucketArn'].split(':::')[-1]` from `lambda_handler`
(`src/Lambda/vector_embed_lambda.py`, line 25).  `pySplit` never returns `[]`,
so the default of `getLastD` is never used. -/
def bucketNameOf (s3BucketArn : String) : String :=
  String.mk ((pySplit ':' [':', ':'] s3BucketArn.toList).getLastD [])

/-! ### base64 encoding (Python `base64.b64encode(..).decode('utf-8')`) -/

/-- The base64 alphabet. -/
def b64Alphabet : List Char :=
  "ABCDEFGHIJKLMNOPQRSTUVWXYZabcdefghijklmnopqrstuvwxyz0123456789+/".toList

/-- Character for the 6-bit value `n`. -/
def b64CharAt (n : Nat) : Char := b64Alphabet.getD n '='

/-- Standard base64 with `=` padding, three input bytes per four output characters. -/
def b64encodeList : List Nat → List Char
  | [] => []
  | [a] => [b64CharAt (a / 4), b64CharAt (a % 4 * 16), '=', '=']
  | [a, b] => [b64CharAt (a / 4), b64CharAt (a % 4 * 16 + b / 16), b64CharAt (b % 16 * 4), '=']
  | a :: b :: c :: rest =>
    b64CharAt (a / 4) :: b64CharAt (a % 4 * 16 + b / 16) ::
      b64CharAt (b % 16 * 4 + c / 64) :: b64CharAt (c % 64) :: b64encodeList rest

/-- Python `base64.b64encode(bytes).decode('utf-8')`. -/
def b64encode (file_content : List Nat) : String := String.mk (b64encodeList file_content)

/-! ### UTF-8 decoding (Python `bytes.decode('utf-8')`) -/

/-- A UTF-8 continuation byte. -/
def isCont (b : Nat) : Bool := 0x80 ≤ b && b ≤ 0xBF

/-- Strict UTF-8 decoding into code points, per RFC 3629 (rejecting overlong forms,
surrogates, and code points above U+10FFFF) — the same byte sequences CPython's
`bytes.decode('utf-8')` accepts.  `none` models a raised `UnicodeDecodeError`. -/
def utf8DecodeList : List Nat → Option (List Char)
  | [] => some []
  | b :: rest =>
    if b ≤ 0x7F then
      (utf8DecodeList rest).map (Char.ofNat b :: ·)
    else if 0xC2 ≤ b && b ≤ 0xDF then
      match rest with
      | c1 :: rest1 =>
        if isCont c1 then
          (utf8DecodeList rest1).map (Char.ofNat ((b - 0xC0) * 0x40 + (c1 - 0x80)) :: ·)
        else none
      | [] => none
    else if 0xE0 ≤ b && b ≤ 0xEF then
      match rest with
      | c1 :: c2 :: rest2 =>
        if (if b = 0xE0 then 0xA0 ≤ c1 && c1 ≤ 0xBF
            else if b = 0xED then 0x80 ≤ c1 && c1 ≤ 0x9F
            else isCont c1) && isCont c2 then
          (utf8DecodeList rest2).map
            (Char.ofNat ((b - 0xE0) * 0x1000 + (c1 - 0x80) * 0x40 + (c2 - 0x80)) :: ·)
        else none
      | _ => none
    else if 0xF0 ≤ b && b ≤ 0xF4 then
      match rest with
      | c1 :: c2 :: c3 :: rest3 =>
        if (if b = 0xF0 then 0x90 ≤ c1 && c1 ≤ 0xBF
            else if b = 0xF4 then 0x80 ≤ c1 && c1 ≤ 0x8F
            else isCont c1) && isCont c2 && isCont c3 then
          (utf8DecodeList rest3).map
            (Char.ofNat ((b - 0xF0) * 0x40000 + (c1 - 0x80) * 0x1000 +
              (c2 - 0x80) * 0x40 + (c3 - 0x80)) :: ·)
        else none
      | _ => none
    else none

/-- Python `file_content.decode('utf-8')`, `none` for a `UnicodeDecodeError`. -/
def utf8Decode (file_content : List Nat) : Option String :=
  (utf8DecodeList file_content).map String.mk

example : pySplit ':' [':', ':'] "arn:aws:s3:::source-bucket-1".toList
    = ["arn:aws:s3".toList, "source-bucket-1".toList] := by decide
example : bucketNameOf "arn:aws:s3:::source-bucket-1" = "source-bucket-1" := by decide
example : b64encode [77] = "TQ==" := by decide
example : b64encode [77, 97, 110] = "TWFu" := by decide
example : utf8Decode [104, 105] = some "hi" := by decide
example : utf8Decode [0xFF] = none := by decide
example : utf8Decode [0xC3, 0xA9] = some "é" := by decide
example : pyStripQuotes "\x22abc123\x22" = "abc123" := by decide

/-! ### Data model of `src/Lambda/vector_embed_lambda.py` -/

/-- Result of `s3_client.get_object`: the body bytes and the optional
`ContentType` reported by S3. -/
structure S3Object where
  body : List Nat
  contentType : Option String
deriving DecidableEq

/-- One entry of `event['tasks']`, per the S3 Batch Operations invocation schema. -/
structure Task where
  taskId : String
  s3Key : String
  s3BucketArn : String
deriving DecidableEq

/-- The invocation event `{invocationId, tasks}`. -/
structure LambdaEvent where
  invocationId : String
  tasks : List Task
deriving DecidableEq

/-- The `request_body` JSON envelope sent to Bedrock: `input.mediaType`,
`input.encoding`, `input.data` and `config.embeddingPurpose`.  `encoding` and
`data` mirror the Python locals `content_encoding` / `content_data`, which are
initialized to `None`. -/
structure RequestBody where
  mediaType : String
  encoding : Option String
  data : Option String
  embeddingPurpose : String
deriving DecidableEq

/-- The `vector_to_store` record passed to `put_vectors`: key, `data.float32`
components and the `{source_bucket, mime_type}` metadata.  The float components
are abstracted as integers; no claim depends on their arithmetic. -/
structure VectorRecord where
  key : String
  float32 : List Int
  source_bucket : String
  mime_type : String
deriving DecidableEq

/-- One element of `results` in the handler's response. -/
structure TaskResult where
  taskId : String
  resultCode : String
  resultString : String
deriving DecidableEq

/-- The handler's response envelope. -/
structure LambdaResponse where
  invocationSchemaVersion : String
  treatMissingKeysAs : String
  results : List TaskResult
deriving DecidableEq

/-- A call made to an external AWS service by the handler, recorded in order. -/
inductive ServiceCall where
  | getObject (bucket key : String)
  | invokeModel (modelId : String) (body : RequestBody)
  | putVectors (vectorBucketName indexName : String) (v : VectorRecord)
deriving DecidableEq

/-- The handler's world: the behavior of each external service it calls, plus the
module-level configuration values (here taken as already-resolved strings; module
initialization itself, with its optional values, is `lambdaModuleInit` below).
`guessType` is `mimetypes.guess_type` restricted to its first component.
`bedrockInvoke` covers `invoke_model` together with the JSON parse
`json.loads(...)["embeddings"][0]["embedding"]`: `Except.ok` is the extracted
embedding, `Except.error` any raised transport/parse exception. -/
structure LambdaEnv where
  s3GetObject : String → String → Except String S3Object
  guessType : String → Option String
  bedrockInvoke : String → RequestBody → Except String (List Int)
  s3vectorsPut : String → String → VectorRecord → Except String Unit
  VECTOR_BUCKET : String
  VECTOR_INDEX : String
  BEDROCK_MODEL_ID : String
  EMBEDDING_DIMENSION : Int

/-! ### The handler itself -/

/-- Lines 33–40 of `vector_embed_lambda.py`: keep the S3-reported content type
unless it is falsy (`None` or the empty string) or one of the two generic
octet-stream values, in which case fall back to the guess from the key. -/
def resolveContentType (s3_content_type guessed : Option String) : Option String :=
  if s3_content_type = none ∨ s3_content_type = some "" ∨
      s3_content_type = some "binary/octet-stream" ∨
      s3_content_type = some "application/octet-stream" then
    guessed
  else
    s3_content_type

/-- Lines 48–60: the MIME-type → media-kind decision chain.  `none` models the
`raise ValueError("Unsupported MIME type: ...")` branch. -/
def mediaTypeOf (content_type : String) : Option String :=
  if pyStartswith content_type "image/" then some "image"
  else if pyStartswith content_type "audio/" then some "audio"
  else if pyStartswith content_type "video/" then some "video"
  else if content_type = "application/pdf" then some "document"
  else if pyStartswith content_type "text/" then some "text"
  else none

/-- Lines 63–70: compute `(content_data, content_encoding)`.  The `(none, none)`
fall-through mirrors the Python locals keeping their initial `None` when
`bedrock_media_type` matches neither branch (unreachable for outputs of
`mediaTypeOf`).  The error branch models the `UnicodeDecodeError` raised by
`decode('utf-8')`; CPython's message also names the byte position, which no
claim inspects. -/
def encodeContent (bedrock_media_type : String) (file_content : List Nat) :
    Except String (Option String × Option String) :=
  if bedrock_media_type ∈ ["image", "video", "audio", "document"] then
    .ok (some (b64encode file_content), some "base64")
  else if bedrock_media_type = "text" then
    match utf8Decode file_content with
    | some s => .ok (some s, some "utf8")
    | none => .error "UnicodeDecodeError: invalid utf-8"
  else
    .ok (none, none)

/-- The body of the per-task `try:` block (lines 27–121), given the already
computed `bucket_name` and `s3_uri`.  Returns the success `resultString` or the
raised exception's message, together with the trace of external calls made. -/
def taskBody (env : LambdaEnv) (bucket_name s3_uri : String) :
    Except String String × List ServiceCall :=
  match env.s3GetObject bucket_name s3_uri with
  | .error e => (.error e, [.getObject bucket_name s3_uri])
  | .ok response =>
    match resolveContentType response.contentType (env.guessType s3_uri) with
    | none =>
      (.error ("Could not determine data type for " ++ s3_uri),
        [.getObject bucket_name s3_uri])
    | some content_type =>
      match mediaTypeOf content_type with
      | none =>
        (.error ("Unsupported MIME type: " ++ content_type),
          [.getObject bucket_name s3_uri])
      | some bedrock_media_type =>
        match encodeContent bedrock_media_type response.body with
        | .error e => (.error e, [.getObject bucket_name s3_uri])
        | .ok (content_data, content_encoding) =>
          let request_body : RequestBody :=
            { mediaType := bedrock_media_type, encoding := content_encoding,
              data := content_data, embeddingPurpose := "GENERIC_INDEX" }
          match env.bedrockInvoke env.BEDROCK_MODEL_ID request_body with
          | .error e =>
            (.error e,
              [.getObject bucket_name s3_uri,
                .invokeModel env.BEDROCK_MODEL_ID request_body])
          | .ok embedding =>
            let vector_to_store : VectorRecord :=
              { key := s3_uri, float32 := embedding,
                source_bucket := bucket_name, mime_type := content_type }
            match env.s3vectorsPut env.VECTOR_BUCKET env.VECTOR_INDEX vector_to_store with
            | .error e =>
              (.error e,
                [.getObject bucket_name s3_uri,
                  .invokeModel env.BEDROCK_MODEL_ID request_body,
                  .putVectors env.VECTOR_BUCKET env.VECTOR_INDEX vector_to_store])
            | .ok _ =>
              (.ok ("Successfully embedded " ++ s3_uri ++ " (" ++ content_type ++
                  ") with " ++ toString env.EMBEDDING_DIMENSION ++ " dimensions"),
                [.getObject bucket_name s3_uri,
                  .invokeModel env.BEDROCK_MODEL_ID request_body,
                  .putVectors env.VECTOR_BUCKET env.VECTOR_INDEX vector_to_store])

/-- One iteration of the `for task in event['tasks']` loop: derive the bucket
name, run the `try:` body, and catch any exception into a `PermanentFailure`
result (lines 22–133). -/
def processTask (env : LambdaEnv) (task : Task) : TaskResult × List ServiceCall :=
  let r := taskBody env (bucketNameOf task.s3BucketArn) task.s3Key
  (match r.1 with
    | .ok msg => { taskId := task.taskId, resultCode := "Succeeded", resultString := msg }
    | .error e => { taskId := task.taskId, resultCode := "PermanentFailure", resultString := e },
   r.2)

/-- `lambda_handler`: the loop appends exactly one result per task, so the result
list is the map of `processTask` over the tasks, and the calls made are the
per-task call traces in order. -/
def lambda_handler (env : LambdaEnv) (event : LambdaEvent) :
    LambdaResponse × List ServiceCall :=
  ({ invocationSchemaVersion := "1.0", treatMissingKeysAs := "Succeeded",
     results := event.tasks.map (fun task => (processTask env task).1) },
   event.tasks.flatMap (fun task => (processTask env task).2))

/-! ### Module initialization (environment-variable loading) -/

/-- Python `int(s)` on a string: optional sign and decimal digits.  CPython also
accepts surrounding whitespace and underscores between digits; no claim depends
on those, and no source input uses them. -/
def digitsVal (ds : List Char) : Nat :=
  ds.foldl (fun n c => n * 10 + (c.toNat - 48)) 0

/-- `none` models the `ValueError` raised by `int()` on a malformed literal. -/
def pyIntParse (s : String) : Option Int :=
  match s.toList with
  | [] => none
  | '-' :: ds => if ds ≠ [] ∧ ds.all (·.isDigit) then some (-(digitsVal ds : Int)) else none
  | '+' :: ds => if ds ≠ [] ∧ ds.all (·.isDigit) then some (digitsVal ds) else none
  | ds => if ds.all (·.isDigit) then some (digitsVal ds) else none

/-- The module-level values of `vector_embed_lambda.py` (lines 8–12).  The three
read with `os.environ.get` stay `Option`: they are `none` when the variable is
missing and the module still loads. -/
structure LambdaModuleConfig where
  VECTOR_BUCKET : Option String
  S3_REGION : String
  VECTOR_INDEX : Option String
  BEDROCK_MODEL_ID : Option String
  EMBEDDING_DIMENSION : Int
deriving DecidableEq

/-- Import-time initialization of `vector_embed_lambda.py`, statement by
statement in source order.  `environ` is the process environment.
`os.environ.get` never raises; `os.environ[...]` raises `KeyError` when the
variable is missing; `int(None)` raises `TypeError` and `int` on a malformed
string raises `ValueError` — all of which abort the module load. -/
def lambdaModuleInit (environ : String → Option String) :
    Except String LambdaModuleConfig :=
  let vector_bucket := environ "VECTOR_BUCKET"
  match environ "S3_REGION" with
  | none => .error "KeyError: S3_REGION"
  | some s3_region =>
    let vector_index := environ "VECTOR_INDEX"
    let bedrock_model_id := environ "BEDROCK_MODEL_ID"
    match environ "EMBEDDING_DIMENSION" with
    | none => .error "TypeError: int() argument cannot be NoneType"
    | some raw =>
      match pyIntParse raw with
      | none => .error ("ValueError: invalid literal for int() with base 10: " ++ raw)
      | some dim =>
        .ok { VECTOR_BUCKET := vector_bucket, S3_REGION := s3_region,
              VECTOR_INDEX := vector_index, BEDROCK_MODEL_ID := bedrock_model_id,
              EMBEDDING_DIMENSION := dim }

/-- The module-level values of `batch_processor.py` (lines 6–9), all read with
`os.environ[...]`. -/
structure BatchModuleConfig where
  INPUT_BUCKET : String
  S3_REGION : String
  BATCH_ROLE_ARN : String
  LAMBDA_ARN : String
deriving DecidableEq

/-- Import-time initialization of `batch_processor.py`, in source order. -/
def batchModuleInit (environ : String → Option String) :
    Except String BatchModuleConfig :=
  match environ "INPUT_BUCKET" with
  | none => .error "KeyError: INPUT_BUCKET"
  | some input_bucket =>
    match environ "S3_REGION" with
    | none => .error "KeyError: S3_REGION"
    | some s3_region =>
      match environ "BATCH_ROLE_ARN" with
      | none => .error "KeyError: BATCH_ROLE_ARN"
      | some batch_role_arn =>
        match environ "LAMBDA_ARN" with
        | none => .error "KeyError: LAMBDA_ARN"
        | some lambda_arn =>
          .ok { INPUT_BUCKET := input_bucket, S3_REGION := s3_region,
                BATCH_ROLE_ARN := batch_role_arn, LAMBDA_ARN := lambda_arn }

/-- A concrete environment given by an association list, for witnesses. -/
def envOf (l : List (String × String)) : String → Option String :=
  fun k => (l.find? (fun p => p.1 == k)).map (fun p => p.2)

/-! ### `src/CodeBuilder/batch_processor.py`: manifest creation and job launch -/

/-- `SOURCE_ZIP_KEY = 'source.zip'` (line 11). -/
def SOURCE_ZIP_KEY : String := "source.zip"

/-- The filter of line 31: keep a listed key unless it ends in `/`, is the
manifest's own key, or case-insensitively ends in `SOURCE_ZIP_KEY`. -/
def manifestKeep (manifest_key key : String) : Bool :=
  !pyEndswith key "/" && key != manifest_key &&
    !pyEndswith (pyLower key) (pyLower SOURCE_ZIP_KEY)

/-- The paginated `list_objects_v2` listing: one entry per page, `none` for a
page without a `"Contents"` field, otherwise that page's object keys in order.
`headETag` is the `ETag` that `head_object` reports for the manifest after
`upload_file`. -/
structure ListingEnv where
  pages : List (Option (List String))
  headETag : String

/-- What `create_manifest_file` produces: the lines written to `manifest.csv`
(in order, without trailing newlines), the counter value, and the returned
quote-stripped ETag. -/
structure ManifestResult where
  lines : List String
  object_count : Nat
  etag : String
deriving DecidableEq

/-- The inner `for obj in page["Contents"]` loop: write one
`f"{bucket_name},{key}"` line and bump the counter for each kept key. -/
def writeKeys (bucket_name manifest_key : String) (keys : List String)
    (acc : List String × Nat) : List String × Nat :=
  keys.foldl
    (fun acc key =>
      if manifestKeep manifest_key key then
        (acc.1 ++ [bucket_name ++ "," ++ key], acc.2 + 1)
      else acc)
    acc

/-- `create_manifest_file(s3_client, bucket_name, manifest_key)` (lines 14–46):
stream through the pages writing kept keys, upload the file, then `head_object`
the fresh manifest and strip quotes from its ETag. -/
def create_manifest_file (listing : ListingEnv) (bucket_name manifest_key : String) :
    ManifestResult :=
  let written :=
    listing.pages.foldl
      (fun acc page =>
        match page with
        | none => acc
        | some contents => writeKeys bucket_name manifest_key contents acc)
      ([], 0)
  { lines := written.1, object_count := written.2,
    etag := pyStripQuotes listing.headETag }

/-- All keys of a listing, flattened in iteration order. -/
def listedKeys (pages : List (Option (List String))) : List String :=
  pages.flatMap (fun page => page.getD [])

/-- A call to the S3 Control service. -/
inductive BatchCall where
  | createJob (account_id manifest_key etag : String)
deriving DecidableEq

/-- World of the `__main__` flow of `batch_processor.py`: the listing, the STS
account id, and the S3 Control `create_job` behavior (`Except.ok` the optional
`JobId` of the response, `Except.error` a raised exception). -/
structure BatchEnv where
  listing : ListingEnv
  account_id : String
  createJobResult : String → String → String → Except String (Option String)

/-- `MANIFEST_KEY` from `__main__` (line 113). -/
def MANIFEST_KEY : String := "batch-job-manifests/multimedia-manifest.csv"

/-- `create_s3_batch_job` (lines 48–104): submit the job request referencing the
manifest key and its ETag; re-raise any service exception; return
`response.get('JobId')`.  The constant payload fields (report config, priority,
field order) do not affect any claim and are not modelled. -/
def create_s3_batch_job (env : BatchEnv) (manifest_key manifest_etag : String) :
    Except String (Option String) × List BatchCall :=
  (env.createJobResult env.account_id manifest_key manifest_etag,
    [.createJob env.account_id manifest_key manifest_etag])

/-- The `__main__` flow (lines 107–123): build the manifest, then create the job
only when `object_count > 0`; otherwise report a no-op (`Except.ok none` with no
job call). -/
def batch_main (env : BatchEnv) (INPUT_BUCKET : String) :
    Except String (Option String) × List BatchCall :=
  let r := create_manifest_file env.listing INPUT_BUCKET MANIFEST_KEY
  if r.object_count > 0 then
    create_s3_batch_job env MANIFEST_KEY r.etag
  else
    (.ok none, [])

/-! ### Helper lemmas about the task handler -/

/-- `processTask` reports the calls that the `try:` body made. -/
lemma processTask_calls (env : LambdaEnv) (task : Task) :
    (processTask env task).2 =
      (taskBody env (bucketNameOf task.s3BucketArn) task.s3Key).2 := rfl

/-- A raised exception becomes a `PermanentFailure` result carrying its message. -/
lemma processTask_error {env : LambdaEnv} {task : Task} {e : String}
    (h : (taskBody env (bucketNameOf task.s3BucketArn) task.s3Key).1 = .error e) :
    (processTask env task).1 =
      { taskId := task.taskId, resultCode := "PermanentFailure", resultString := e } := by
  simp [processTask, h]

/-- A completed `try:` body becomes a `Succeeded` result carrying its message. -/
lemma processTask_ok {env : LambdaEnv} {task : Task} {msg : String}
    (h : (taskBody env (bucketNameOf task.s3BucketArn) task.s3Key).1 = .ok msg) :
    (processTask env task).1 =
      { taskId := task.taskId, resultCode := "Succeeded", resultString := msg } := by
  simp [processTask, h]

/-- Every `get_object` call the body makes names the derived bucket and the task key. -/
lemma getObject_mem_taskBody {env : LambdaEnv} {bn uri b k : String}
    (h : ServiceCall.getObject b k ∈ (taskBody env bn uri).2) : b = bn ∧ k = uri := by
  cases hg : env.s3GetObject bn uri with
  | error e => simp [taskBody, hg] at h; exact h
  | ok response =>
    cases hct : resolveContentType response.contentType (env.guessType uri) with
    | none => simp [taskBody, hg, hct] at h; exact h
    | some content_type =>
      cases hmt : mediaTypeOf content_type with
      | none => simp [taskBody, hg, hct, hmt] at h; exact h
      | some mt =>
        cases hec : encodeContent mt response.body with
        | error e => simp [taskBody, hg, hct, hmt, hec] at h; exact h
        | ok pair =>
          rcases pair with ⟨cd, ce⟩
          cases hbr : env.bedrockInvoke env.BEDROCK_MODEL_ID
              { mediaType := mt, encoding := ce, data := cd,
                embeddingPurpose := "GENERIC_INDEX" } with
          | error e => simp [taskBody, hg, hct, hmt, hec, hbr] at h; exact h
          | ok emb =>
            cases hpv : env.s3vectorsPut env.VECTOR_BUCKET env.VECTOR_INDEX
                { key := uri, float32 := emb, source_bucket := bn,
                  mime_type := content_type } with
            | error e => simp [taskBody, hg, hct, hmt, hec, hbr, hpv] at h; exact h
            | ok u => simp [taskBody, hg, hct, hmt, hec, hbr, hpv] at h; exact h

/-- Every model invocation in the body's trace uses the configured model id and a
request whose media type came from `mediaTypeOf` applied to the resolved content
type, whose payload came from `encodeContent`, and whose purpose is the literal
`GENERIC_INDEX`. -/
lemma invokeModel_mem_taskBody {env : LambdaEnv} {bn uri m : String} {req : RequestBody}
    (h : ServiceCall.invokeModel m req ∈ (taskBody env bn uri).2) :
    m = env.BEDROCK_MODEL_ID ∧
    ∃ response content_type,
      env.s3GetObject bn uri = .ok response ∧
      resolveContentType response.contentType (env.guessType uri) = some content_type ∧
      mediaTypeOf content_type = some req.mediaType ∧
      encodeContent req.mediaType response.body = .ok (req.data, req.encoding) ∧
      req.embeddingPurpose = "GENERIC_INDEX" := by
  cases hg : env.s3GetObject bn uri with
  | error e => simp [taskBody, hg] at h
  | ok response =>
    cases hct : resolveContentType response.contentType (env.guessType uri) with
    | none => simp [taskBody, hg, hct] at h
    | some content_type =>
      cases hmt : mediaTypeOf content_type with
      | none => simp [taskBody, hg, hct, hmt] at h
      | some mt =>
        cases hec : encodeContent mt response.body with
        | error e => simp [taskBody, hg, hct, hmt, hec] at h
        | ok pair =>
          rcases pair with ⟨cd, ce⟩
          cases hbr : env.bedrockInvoke env.BEDROCK_MODEL_ID
              { mediaType := mt, encoding := ce, data := cd,
                embeddingPurpose := "GENERIC_INDEX" } with
          | error e =>
            simp [taskBody, hg, hct, hmt, hec, hbr] at h
            rcases h with ⟨hm, hreq⟩
            subst hreq
            exact ⟨hm, response, content_type, rfl, hct, hmt, hec, rfl⟩
          | ok emb =>
            cases hpv : env.s3vectorsPut env.VECTOR_BUCKET env.VECTOR_INDEX
                { key := uri, float32 := emb, source_bucket := bn,
                  mime_type := content_type } with
            | error e =>
              simp [taskBody, hg, hct, hmt, hec, hbr, hpv] at h
              rcases h with ⟨hm, hreq⟩
              subst hreq
              exact ⟨hm, response, content_type, rfl, hct, hmt, hec, rfl⟩
            | ok u =>
              simp [taskBody, hg, hct, hmt, hec, hbr, hpv] at h
              rcases h with ⟨hm, hreq⟩
              subst hreq
              exact ⟨hm, response, content_type, rfl, hct, hmt, hec, rfl⟩

/-- Every `put_vectors` call in the body's trace targets the configured vector
bucket and index, is keyed by the object key, carries the derived bucket name as
metadata, stores exactly a model-returned embedding, and determines the body's
outcome: success when the upsert succeeded, the upsert's exception otherwise. -/
lemma putVectors_mem_taskBody {env : LambdaEnv} {bn uri b i : String} {v : VectorRecord}
    (h : ServiceCall.putVectors b i v ∈ (taskBody env bn uri).2) :
    b = env.VECTOR_BUCKET ∧ i = env.VECTOR_INDEX ∧ v.key = uri ∧ v.source_bucket = bn ∧
    (∃ req, env.bedrockInvoke env.BEDROCK_MODEL_ID req = .ok v.float32) ∧
    ((env.s3vectorsPut env.VECTOR_BUCKET env.VECTOR_INDEX v = .ok () ∧
        ∃ msg, (taskBody env bn uri).1 = .ok msg) ∨
      (∃ e, env.s3vectorsPut env.VECTOR_BUCKET env.VECTOR_INDEX v = .error e ∧
        (taskBody env bn uri).1 = .error e)) := by
  cases hg : env.s3GetObject bn uri with
  | error e => simp [taskBody, hg] at h
  | ok response =>
    cases hct : resolveContentType response.contentType (env.guessType uri) with
    | none => simp [taskBody, hg, hct] at h
    | some content_type =>
      cases hmt : mediaTypeOf content_type with
      | none => simp [taskBody, hg, hct, hmt] at h
      | some mt =>
        cases hec : encodeContent mt response.body with
        | error e => simp [taskBody, hg, hct, hmt, hec] at h
        | ok pair =>
          rcases pair with ⟨cd, ce⟩
          cases hbr : env.bedrockInvoke env.BEDROCK_MODEL_ID
              { mediaType := mt, encoding := ce, data := cd,
                embeddingPurpose := "GENERIC_INDEX" } with
          | error e => simp [taskBody, hg, hct, hmt, hec, hbr] at h
          | ok emb =>
            cases hpv : env.s3vectorsPut env.VECTOR_BUCKET env.VECTOR_INDEX
                { key := uri, float32 := emb, source_bucket := bn,
                  mime_type := content_type } with
            | error e =>
              simp [taskBody, hg, hct, hmt, hec, hbr, hpv] at h
              rcases h with ⟨hb, hi, hv⟩
              subst hb; subst hi; subst hv
              refine ⟨rfl, rfl, rfl, rfl, ⟨_, hbr⟩, Or.inr ⟨e, hpv, ?_⟩⟩
              simp [taskBody, hg, hct, hmt, hec, hbr, hpv]
            | ok u =>
              simp [taskBody, hg, hct, hmt, hec, hbr, hpv] at h
              rcases h with ⟨hb, hi, hv⟩
              subst hb; subst hi; subst hv
              refine ⟨rfl, rfl, rfl, rfl, ⟨_, hbr⟩, Or.inl ⟨by simpa using hpv, ?_⟩⟩
              refine ⟨"Successfully embedded " ++ uri ++ " (" ++ content_type ++
                ") with " ++ toString env.EMBEDDING_DIMENSION ++ " dimensions", ?_⟩
              simp [taskBody, hg, hct, hmt, hec, hbr, hpv]

/-- `String.toList` determines the string. -/
lemma string_toList_inj {a b : String} (h : a.toList = b.toList) : a = b := by
  cases a; cases b; simp [String.toList] at h; subst h; rfl

/-- `getD` through `map`, inside the bounds. -/
lemma getD_map {α β : Type} (f : α → β) (dα : α) (dβ : β) :
    ∀ (l : List α) (n : Nat), n < l.length → (l.map f).getD n dβ = f (l.getD n dα)
  | a :: l, 0, _ => by simp [List.getD]
  | a :: l, n + 1, h => by
    simpa [List.getD] using getD_map f dα dβ l n (by simpa using h)

/-! ### C10 -/

/-- C10: an invocation event with an empty task list yields the well-formed
response envelope (`invocationSchemaVersion` 1.0, `treatMissingKeysAs`
Succeeded) with an empty result list, and no external service call is made. -/
theorem C10_empty_tasks (env : LambdaEnv) (invocation_id : String) :
    lambda_handler env { invocationId := invocation_id, tasks := [] } =
      ({ invocationSchemaVersion := "1.0", treatMissingKeysAs := "Succeeded",
         results := [] }, []) := rfl

/-! ### C2 -/

/-- Placeholder task for out-of-range `getD` reads (never hit under the bounds). -/
def defaultTask : Task := { taskId := "", s3Key := "", s3BucketArn := "" }

/-- Placeholder result for out-of-range `getD` reads (never hit under the bounds). -/
def defaultResult : TaskResult := { taskId := "", resultCode := "", resultString := "" }

/-- What C2 asserts about a batch in which task `k`'s body raised `e`: as many
results as tasks; result `k` is a `PermanentFailure` carrying `e`; every result
`j` is exactly the independent outcome of task `j` alone; and the external calls
made are the concatenation of every task's own calls. -/
def C2Conclusion (env : LambdaEnv) (event : LambdaEvent) (k : Nat) (e : String) : Prop :=
  (lambda_handler env event).1.results.length = event.tasks.length ∧
  (lambda_handler env event).1.results.getD k defaultResult =
    { taskId := (event.tasks.getD k defaultTask).taskId,
      resultCode := "PermanentFailure", resultString := e } ∧
  (∀ j, j < event.tasks.length →
    (lambda_handler env event).1.results.getD j defaultResult =
      (processTask env (event.tasks.getD j defaultTask)).1) ∧
  (lambda_handler env event).2 = event.tasks.flatMap (fun task => (processTask env task).2)

/-- C2: the handler returns one result per task in input order; a task whose
processing raises is reported as `PermanentFailure` with the exception's message
as the result string, while every other task's result and calls are its own
independent outcome; no exception crosses the task boundary (the handler is a
total function of the event). -/
theorem C2_per_task_isolation (env : LambdaEnv) (event : LambdaEvent)
    (k : Nat) (e : String) (hk : k < event.tasks.length)
    (herr : (taskBody env (bucketNameOf (event.tasks.getD k defaultTask).s3BucketArn)
        (event.tasks.getD k defaultTask).s3Key).1 = Except.error e) :
    C2Conclusion env event k e := by
  have hres : (lambda_handler env event).1.results =
      event.tasks.map (fun task => (processTask env task).1) := rfl
  refine ⟨by simp [hres], ?_, ?_, rfl⟩
  · rw [hres, getD_map (fun task => (processTask env task).1) defaultTask defaultResult
      event.tasks k hk]
    exact processTask_error herr
  · intro j hj
    rw [hres, getD_map (fun task => (processTask env task).1) defaultTask defaultResult
      event.tasks j hj]

/-- Concrete world for exercising C2: the store raises `NoSuchKey` for the key
`bad` and succeeds elsewhere. -/
def envC2 : LambdaEnv :=
  { s3GetObject := fun _ key =>
      if key == "bad" then .error "NoSuchKey"
      else .ok { body := [104, 105], contentType := some "text/plain" },
    guessType := fun _ => none,
    bedrockInvoke := fun _ _ => .ok [1],
    s3vectorsPut := fun _ _ _ => .ok (),
    VECTOR_BUCKET := "vb", VECTOR_INDEX := "vi",
    BEDROCK_MODEL_ID := "m", EMBEDDING_DIMENSION := 1 }

/-- A two-task batch whose first task fails during download. -/
def eventC2 : LambdaEvent :=
  { invocationId := "inv",
    tasks := [{ taskId := "t0", s3Key := "bad", s3BucketArn := "arn:aws:s3:::b1" },
              { taskId := "t1", s3Key := "ok.txt", s3BucketArn := "arn:aws:s3:::b1" }] }

/-- C2 at a concrete input: task 0 of `eventC2` raises, and the conclusion holds. -/
theorem C2_witness :
    0 < eventC2.tasks.length ∧
    (taskBody envC2 (bucketNameOf (eventC2.tasks.getD 0 defaultTask).s3BucketArn)
        (eventC2.tasks.getD 0 defaultTask).s3Key).1 = Except.error "NoSuchKey" ∧
    C2Conclusion envC2 eventC2 0 "NoSuchKey" :=
  ⟨by decide, rfl, C2_per_task_isolation envC2 eventC2 0 "NoSuchKey" (by decide) rfl⟩

/-! ### C6 -/

/-- Unrolling one key through the inner writing loop. -/
lemma writeKeys_cons (bucket_name manifest_key key : String) (keys : List String)
    (acc : List String × Nat) :
    writeKeys bucket_name manifest_key (key :: keys) acc =
      writeKeys bucket_name manifest_key keys
        (if manifestKeep manifest_key key then
          (acc.1 ++ [bucket_name ++ "," ++ key], acc.2 + 1)
        else acc) := rfl

/-- The inner loop appends exactly the kept keys' lines and counts them. -/
lemma writeKeys_spec (bucket_name manifest_key : String) :
    ∀ (keys : List String) (acc : List String × Nat),
      writeKeys bucket_name manifest_key keys acc =
        (acc.1 ++ (keys.filter (manifestKeep manifest_key)).map
            (fun key => bucket_name ++ "," ++ key),
          acc.2 + (keys.filter (manifestKeep manifest_key)).length) := by
  intro keys
  induction keys with
  | nil => intro acc; simp [writeKeys]
  | cons key keys ih =>
    intro acc
    rw [writeKeys_cons, ih]
    cases h : manifestKeep manifest_key key with
    | false => simp [List.filter_cons, h]
    | true =>
      simp only [List.filter_cons, h, if_true, List.map_cons, List.length_cons, reduceIte]
      refine Prod.ext ?_ ?_
      · simp [List.append_assoc]
      · simp; omega

/-- The page loop of `create_manifest_file` over the whole listing. -/
lemma pagesFold_spec (bucket_name manifest_key : String) :
    ∀ (pages : List (Option (List String))) (acc : List String × Nat),
      pages.foldl
          (fun acc page =>
            match page with
            | none => acc
            | some contents => writeKeys bucket_name manifest_key contents acc)
          acc =
        (acc.1 ++ ((listedKeys pages).filter (manifestKeep manifest_key)).map
            (fun key => bucket_name ++ "," ++ key),
          acc.2 + ((listedKeys pages).filter (manifestKeep manifest_key)).length) := by
  intro pages
  induction pages with
  | nil => intro acc; simp [listedKeys]
  | cons page pages ih =>
    intro acc
    cases page with
    | none => simpa [listedKeys] using ih acc
    | some contents =>
      rw [List.foldl_cons]
      show pages.foldl _ (writeKeys bucket_name manifest_key contents acc) = _
      rw [ih (writeKeys bucket_name manifest_key contents acc), writeKeys_spec]
      have hkeys : listedKeys (some contents :: pages) = contents ++ listedKeys pages := by
        simp [listedKeys]
      rw [hkeys]
      refine Prod.ext ?_ ?_
      · simp [List.filter_append, List.append_assoc]
      · simp [List.filter_append]; omega

/-- The manifest's lines are exactly the kept keys' lines in listing order, and
the counter counts them. -/
lemma create_manifest_file_spec (listing : ListingEnv) (bucket_name manifest_key : String) :
    (create_manifest_file listing bucket_name manifest_key).lines =
      ((listedKeys listing.pages).filter (manifestKeep manifest_key)).map
        (fun key => bucket_name ++ "," ++ key) ∧
    (create_manifest_file listing bucket_name manifest_key).object_count =
      ((listedKeys listing.pages).filter (manifestKeep manifest_key)).length := by
  have h := pagesFold_spec bucket_name manifest_key listing.pages ([], 0)
  constructor
  · show (listing.pages.foldl _ ([], 0)).1 = _
    rw [h]; simp
  · show (listing.pages.foldl _ ([], 0)).2 = _
    rw [h]; simp

/-- C6: the returned `object_count` equals the number of manifest lines written,
and the returned fingerprint is the store-reported ETag of the freshly uploaded
manifest with its surrounding quotes stripped. -/
theorem C6_count_and_fingerprint (listing : ListingEnv) (bucket_name manifest_key : String) :
    (create_manifest_file listing bucket_name manifest_key).object_count =
      (create_manifest_file listing bucket_name manifest_key).lines.length ∧
    (create_manifest_file listing bucket_name manifest_key).etag =
      pyStripQuotes listing.headETag := by
  obtain ⟨h1, h2⟩ := create_manifest_file_spec listing bucket_name manifest_key
  exact ⟨by rw [h1, h2, List.length_map], rfl⟩

/-! ### C8 -/

/-- C8: when the manifest comes back with `object_count = 0`, the `__main__` flow
never calls `create_job` and finishes as a non-error no-op. -/
theorem C8_zero_object_short_circuit (env : BatchEnv) (INPUT_BUCKET : String)
    (h : (create_manifest_file env.listing INPUT_BUCKET MANIFEST_KEY).object_count = 0) :
    batch_main env INPUT_BUCKET = (.ok none, []) := by
  simp [batch_main, h]

/-- A world with an empty listing and a job service that would reject any
submission — so a submission attempt could not go unnoticed. -/
def batchEnvEmpty : BatchEnv :=
  { listing := { pages := [none, some []], headETag := "\x22d41d8cd98f00b204e9800998ecf8427e\x22" },
    account_id := "123456789012",
    createJobResult := fun _ _ _ => .error "SimulatedServiceRejection" }

/-- C8 at a concrete input: the empty listing yields count 0 and a clean no-op. -/
theorem C8_witness :
    (create_manifest_file batchEnvEmpty.listing "input-bucket" MANIFEST_KEY).object_count = 0 ∧
    batch_main batchEnvEmpty "input-bucket" = (.ok none, []) :=
  ⟨by decide, C8_zero_object_short_circuit batchEnvEmpty "input-bucket" (by decide)⟩

/-! ### C5 -/

/-- The manifest line written for a kept key, as the claim speaks of it. -/
def manifestLine (bucket_name key : String) : String := bucket_name ++ "," ++ key

/-- Two lines with the same bucket agree only on the same key. -/
lemma manifestLine_inj (bucket_name : String) {a b : String}
    (h : manifestLine bucket_name a = manifestLine bucket_name b) : a = b := by
  have hl : (bucket_name ++ ",").toList ++ a.toList =
      (bucket_name ++ ",").toList ++ b.toList := by
    have := congrArg String.toList h
    simpa [manifestLine, String.toList, String.data_append, List.append_assoc] using this
  exact string_toList_inj (List.append_cancel_left hl)

/-- Each exclusion rule makes `manifestKeep` reject. -/
lemma manifestKeep_false_of_excl (manifest_key key : String)
    (h : pyEndswith key "/" = true ∨ key = manifest_key ∨
      pyEndswith (pyLower key) (pyLower SOURCE_ZIP_KEY) = true) :
    manifestKeep manifest_key key = false := by
  rcases h with h | h | h
  · simp [manifestKeep, h]
  · subst h; simp [manifestKeep]
  · simp [manifestKeep, h]

/-- C5: the manifest contains no directory marker, no self-reference and no
packaging artifact; every other listed key appears as its `(container,key)`
line, once per occurrence, in listing order (the lines are literally the
filtered listing mapped to lines); and — given the store's invariant that
listed keys are non-empty — every emitted line is for a non-empty key. -/
theorem C5_manifest_filtering (listing : ListingEnv) (bucket_name manifest_key : String)
    (hne : ∀ key ∈ listedKeys listing.pages, key ≠ "") :
    (create_manifest_file listing bucket_name manifest_key).lines =
      ((listedKeys listing.pages).filter (manifestKeep manifest_key)).map
        (manifestLine bucket_name) ∧
    (∀ key,
      (pyEndswith key "/" = true ∨ key = manifest_key ∨
        pyEndswith (pyLower key) (pyLower SOURCE_ZIP_KEY) = true) →
      manifestLine bucket_name key ∉
        (create_manifest_file listing bucket_name manifest_key).lines) ∧
    (∀ line ∈ (create_manifest_file listing bucket_name manifest_key).lines,
      ∃ key, key ∈ listedKeys listing.pages ∧ key ≠ "" ∧
        manifestKeep manifest_key key = true ∧ line = manifestLine bucket_name key) := by
  obtain ⟨h1, -⟩ := create_manifest_file_spec listing bucket_name manifest_key
  have h1' : (create_manifest_file listing bucket_name manifest_key).lines =
      ((listedKeys listing.pages).filter (manifestKeep manifest_key)).map
        (manifestLine bucket_name) := h1
  refine ⟨h1', ?_, ?_⟩
  · intro key hexcl hmem
    rw [h1'] at hmem
    obtain ⟨key2, hkey2, hline⟩ := List.mem_map.mp hmem
    obtain ⟨-, hkeep2⟩ := List.mem_filter.mp hkey2
    have : key2 = key := manifestLine_inj bucket_name hline
    subst this
    rw [manifestKeep_false_of_excl manifest_key key2 hexcl] at hkeep2
    cases hkeep2
  · intro line hmem
    rw [h1'] at hmem
    obtain ⟨key, hkey, hline⟩ := List.mem_map.mp hmem
    obtain ⟨hmemk, hkeep⟩ := List.mem_filter.mp hkey
    exact ⟨key, hmemk, hne key hmemk, hkeep, hline.symm⟩

/-- A listing with a directory marker, the manifest's own key, packaging
artifacts in both cases, and two ordinary keys split over pages. -/
def listingC5 : ListingEnv :=
  { pages := [some ["media/", "batch-job-manifests/multimedia-manifest.csv",
                "Source.ZIP", "a.png"],
              none,
              some ["b.txt", "nested/source.zip"]],
    headETag := "\x22e2fc714c4727ee9395f324cd2e7f331f\x22" }

/-- C5 at a concrete input: the hypothesis holds and so does the conclusion. -/
theorem C5_witness :
    (∀ key ∈ listedKeys listingC5.pages, key ≠ "") ∧
    ((create_manifest_file listingC5 "in-bucket" MANIFEST_KEY).lines =
      ((listedKeys listingC5.pages).filter (manifestKeep MANIFEST_KEY)).map
        (manifestLine "in-bucket") ∧
    (∀ key,
      (pyEndswith key "/" = true ∨ key = MANIFEST_KEY ∨
        pyEndswith (pyLower key) (pyLower SOURCE_ZIP_KEY) = true) →
      manifestLine "in-bucket" key ∉
        (create_manifest_file listingC5 "in-bucket" MANIFEST_KEY).lines) ∧
    (∀ line ∈ (create_manifest_file listingC5 "in-bucket" MANIFEST_KEY).lines,
      ∃ key, key ∈ listedKeys listingC5.pages ∧ key ≠ "" ∧
        manifestKeep MANIFEST_KEY key = true ∧ line = manifestLine "in-bucket" key)) :=
  ⟨by decide, C5_manifest_filtering listingC5 "in-bucket" MANIFEST_KEY (by decide)⟩

/-! ### C4 -/

/-- An environment with only region and dimension set: the Lambda module still
loads, with the vector bucket, index and model id silently absent. -/
def environC4 : String → Option String :=
  envOf [("S3_REGION", "us-east-1"), ("EMBEDDING_DIMENSION", "1024")]

/-- C4 counterexample: `VECTOR_BUCKET`, `VECTOR_INDEX` and `BEDROCK_MODEL_ID`
are missing from the environment, yet module initialization succeeds — the
process does not fail at startup for these required values. -/
theorem C4_counterexample :
    environC4 "VECTOR_BUCKET" = none ∧
    environC4 "VECTOR_INDEX" = none ∧
    environC4 "BEDROCK_MODEL_ID" = none ∧
    lambdaModuleInit environC4 =
      .ok { VECTOR_BUCKET := none, S3_REGION := "us-east-1", VECTOR_INDEX := none,
            BEDROCK_MODEL_ID := none, EMBEDDING_DIMENSION := 1024 } := by
  refine ⟨rfl, rfl, rfl, ?_⟩
  rfl

/-- C4 as amended: module load fails exactly when a value read with
`os.environ[...]`/`int(...)` is missing or unparsable.  For the Lambda module
that is the region and the embedding dimension only; for the batch module it is
all four of its values.  The defaulting reads (vector bucket, vector index,
model id) never fail the load. -/
theorem C4_amended_startup_characterization (environ : String → Option String) :
    ((∃ cfg, lambdaModuleInit environ = .ok cfg) ↔
      (environ "S3_REGION" ≠ none ∧
        ∃ raw, environ "EMBEDDING_DIMENSION" = some raw ∧ pyIntParse raw ≠ none)) ∧
    ((∃ cfg, batchModuleInit environ = .ok cfg) ↔
      (environ "INPUT_BUCKET" ≠ none ∧ environ "S3_REGION" ≠ none ∧
        environ "BATCH_ROLE_ARN" ≠ none ∧ environ "LAMBDA_ARN" ≠ none)) := by
  constructor
  · cases hr : environ "S3_REGION" with
    | none => simp [lambdaModuleInit, hr]
    | some region =>
      cases hd : environ "EMBEDDING_DIMENSION" with
      | none => simp [lambdaModuleInit, hr, hd]
      | some raw =>
        cases hp : pyIntParse raw with
        | none => simp [lambdaModuleInit, hr, hd, hp]
        | some dim => simp [lambdaModuleInit, hr, hd, hp]
  · cases h1 : environ "INPUT_BUCKET" with
    | none => simp [batchModuleInit, h1]
    | some v1 =>
      cases h2 : environ "S3_REGION" with
      | none => simp [batchModuleInit, h1, h2]
      | some v2 =>
        cases h3 : environ "BATCH_ROLE_ARN" with
        | none => simp [batchModuleInit, h1, h2, h3]
        | some v3 =>
          cases h4 : environ "LAMBDA_ARN" with
          | none => simp [batchModuleInit, h1, h2, h3, h4]
          | some v4 => simp [batchModuleInit, h1, h2, h3, h4]

/-- The amended characterization at the concrete counterexample environment. -/
theorem C4_amended_witness :
    ((∃ cfg, lambdaModuleInit environC4 = .ok cfg) ↔
      (environC4 "S3_REGION" ≠ none ∧
        ∃ raw, environC4 "EMBEDDING_DIMENSION" = some raw ∧ pyIntParse raw ≠ none)) ∧
    ((∃ cfg, batchModuleInit environC4 = .ok cfg) ↔
      (environC4 "INPUT_BUCKET" ≠ none ∧ environC4 "S3_REGION" ≠ none ∧
        environC4 "BATCH_ROLE_ARN" ≠ none ∧ environC4 "LAMBDA_ARN" ≠ none)) :=
  C4_amended_startup_characterization environC4

/-! ### C3 -/

/-- World for the C3 counterexample: the configured dimension is 1024 but the
model answers with a 2-component vector; the index accepts anything. -/
def envC3 : LambdaEnv :=
  { s3GetObject := fun _ _ => .ok { body := [1, 2, 3], contentType := some "image/png" },
    guessType := fun _ => none,
    bedrockInvoke := fun _ _ => .ok [7, 8],
    s3vectorsPut := fun _ _ _ => .ok (),
    VECTOR_BUCKET := "vb", VECTOR_INDEX := "vi",
    BEDROCK_MODEL_ID := "m", EMBEDDING_DIMENSION := 1024 }

/-- The task of the C3 counterexample. -/
def taskC3 : Task := { taskId := "t", s3Key := "img.png", s3BucketArn := "arn:aws:s3:::b" }

/-- C3 counterexample: the model returns a vector of length 2 against a
configured dimension of 1024, yet the handler does not fail the task — it
reports `Succeeded` (whose message even claims 1024 dimensions) and passes the
wrong-length vector to the index upsert. -/
theorem C3_counterexample :
    (processTask envC3 taskC3).1 =
      { taskId := "t", resultCode := "Succeeded",
        resultString := "Successfully embedded img.png (image/png) with 1024 dimensions" } ∧
    ServiceCall.putVectors "vb" "vi"
        { key := "img.png", float32 := [7, 8], source_bucket := "b",
          mime_type := "image/png" } ∈ (processTask envC3 taskC3).2 ∧
    (([7, 8] : List Int).length : Int) ≠ envC3.EMBEDDING_DIMENSION := by
  refine ⟨rfl, ?_, by decide⟩
  show _ ∈ (taskBody envC3 "b" "img.png").2
  right; right; exact List.mem_singleton.mpr rfl

/-- C3 as amended: the handler performs no dimension check at all.  Every vector
it passes to the index upsert is exactly a model-returned embedding — never
truncated or padded — and the only way a wrong-dimension vector fails the task
is the index call itself raising, in which case the task is a
`PermanentFailure`. -/
theorem C3_amended_no_dimension_check (env : LambdaEnv) (task : Task) :
    (∀ b i v, ServiceCall.putVectors b i v ∈ (processTask env task).2 →
      b = env.VECTOR_BUCKET ∧ i = env.VECTOR_INDEX ∧
      (∃ req, env.bedrockInvoke env.BEDROCK_MODEL_ID req = .ok v.float32)) ∧
    (∀ b i v e, ServiceCall.putVectors b i v ∈ (processTask env task).2 →
      env.s3vectorsPut env.VECTOR_BUCKET env.VECTOR_INDEX v = .error e →
      (processTask env task).1.resultCode = "PermanentFailure") := by
  constructor
  · intro b i v hmem
    rw [processTask_calls] at hmem
    obtain ⟨hb, hi, -, -, hemb, -⟩ := putVectors_mem_taskBody hmem
    exact ⟨hb, hi, hemb⟩
  · intro b i v e hmem herr
    rw [processTask_calls] at hmem
    obtain ⟨-, -, -, -, -, hout⟩ := putVectors_mem_taskBody hmem
    rcases hout with ⟨hok, -⟩ | ⟨e2, -, hbody⟩
    · rw [hok] at herr; cases herr
    · rw [processTask_error hbody]

/-- The amended statement at the counterexample world. -/
theorem C3_amended_witness :
    (∀ b i v, ServiceCall.putVectors b i v ∈ (processTask envC3 taskC3).2 →
      b = envC3.VECTOR_BUCKET ∧ i = envC3.VECTOR_INDEX ∧
      (∃ req, envC3.bedrockInvoke envC3.BEDROCK_MODEL_ID req = .ok v.float32)) ∧
    (∀ b i v e, ServiceCall.putVectors b i v ∈ (processTask envC3 taskC3).2 →
      envC3.s3vectorsPut envC3.VECTOR_BUCKET envC3.VECTOR_INDEX v = .error e →
      (processTask envC3 taskC3).1.resultCode = "PermanentFailure") :=
  C3_amended_no_dimension_check envC3 taskC3

/-! ### Classification lemmas shared by C1 and C7 -/

/-- A string starting with `p` starts with `p`'s first character. -/
lemma pyStartswith_head {s p : String} {c : Char} {rest : List Char}
    (hp : p.toList = c :: rest) (h : pyStartswith s p = true) :
    ∃ t, s.toList = c :: t := by
  unfold pyStartswith at h
  rw [hp] at h
  cases hs : s.toList with
  | nil => rw [hs] at h; simp [List.isPrefixOf] at h
  | cons b t =>
    rw [hs] at h
    simp [List.isPrefixOf] at h
    exact ⟨t, by simp [h.1]⟩

/-- Two candidate prefixes with different first characters cannot both match. -/
lemma pyStartswith_false_of_head_ne {s p q : String} {cp cq : Char} {rp rq : List Char}
    (hp : p.toList = cp :: rp) (hq : q.toList = cq :: rq) (hne : cq ≠ cp)
    (h : pyStartswith s p = true) : pyStartswith s q = false := by
  obtain ⟨t, hs⟩ := pyStartswith_head hp h
  unfold pyStartswith
  rw [hq, hs]
  simp [List.isPrefixOf, hne]

/-- A string starting with one character is not a literal starting with another. -/
lemma ne_of_startswith_head {s p : String} {cs cp : Char} {rp : List Char}
    (hhead : ∃ t, s.toList = cs :: t) (hp : p.toList = cp :: rp) (hne : cs ≠ cp) :
    s ≠ p := by
  obtain ⟨t, hs⟩ := hhead
  intro h
  subst h
  rw [hs] at hp
  exact hne (List.cons.inj hp).1

/-- `mediaTypeOf` only ever produces the five media kinds. -/
lemma mediaTypeOf_range {t k : String} (h : mediaTypeOf t = some k) :
    k ∈ (["image", "audio", "video", "document", "text"] : List String) := by
  unfold mediaTypeOf at h
  split_ifs at h <;> simp_all

/-- The base64 branch of the encoding step. -/
lemma encodeContent_binary {mt : String}
    (h : mt ∈ (["image", "video", "audio", "document"] : List String))
    (file_content : List Nat) :
    encodeContent mt file_content = .ok (some (b64encode file_content), some "base64") := by
  unfold encodeContent
  rw [if_pos h]

/-- The utf-8 branch of the encoding step. -/
lemma encodeContent_text (file_content : List Nat) :
    encodeContent "text" file_content =
      (match utf8Decode file_content with
        | some s => .ok (some s, some "utf8")
        | none => .error "UnicodeDecodeError: invalid utf-8") := by
  unfold encodeContent
  rw [if_neg (by decide), if_pos rfl]

/-! ### C7 -/

/-- What C7 asserts about the requests a task sends to the model: binary kinds
carry the base64 payload, the text kind carries the decoded utf-8 payload, no
other pairing occurs, and invalid utf-8 in a declared-text object fails the task
before any model call. -/
def C7Conclusion (env : LambdaEnv) (task : Task) (response : S3Object) : Prop :=
  (∀ m req, ServiceCall.invokeModel m req ∈ (processTask env task).2 →
    (req.mediaType ∈ (["image", "audio", "video", "document"] : List String) →
      req.encoding = some "base64" ∧ req.data = some (b64encode response.body)) ∧
    (req.mediaType = "text" →
      req.encoding = some "utf8" ∧ req.data = utf8Decode response.body ∧
        utf8Decode response.body ≠ none) ∧
    ((req.encoding = some "base64" ∧
        req.mediaType ∈ (["image", "audio", "video", "document"] : List String)) ∨
      (req.encoding = some "utf8" ∧ req.mediaType = "text"))) ∧
  (∀ content_type,
    resolveContentType response.contentType (env.guessType task.s3Key) = some content_type →
    mediaTypeOf content_type = some "text" →
    utf8Decode response.body = none →
    (processTask env task).1.resultCode = "PermanentFailure" ∧
    ∀ m req, ServiceCall.invokeModel m req ∉ (processTask env task).2)

/-- C7: for a downloaded object, every model request pairs a binary kind with
the base64 encoding of the downloaded bytes and the text kind with their utf-8
decoding — never any other pairing — and a declared-text object with invalid
utf-8 is a `PermanentFailure` with no model call. -/
theorem C7_encoding_invariant (env : LambdaEnv) (task : Task) (response : S3Object)
    (hget : env.s3GetObject (bucketNameOf task.s3BucketArn) task.s3Key = .ok response) :
    C7Conclusion env task response := by
  constructor
  · intro m req hmem
    rw [processTask_calls] at hmem
    obtain ⟨-, response2, ct, hget2, hct, hmt, hec, -⟩ := invokeModel_mem_taskBody hmem
    rw [hget] at hget2
    have hresp : response = response2 := Except.ok.inj hget2
    subst hresp
    refine ⟨?_, ?_, ?_⟩
    · intro hbin
      have hbin2 : req.mediaType ∈ (["image", "video", "audio", "document"] : List String) := by
        simp at hbin ⊢; tauto
      rw [encodeContent_binary hbin2] at hec
      have := Except.ok.inj hec
      exact ⟨(Prod.mk.inj this).2.symm, (Prod.mk.inj this).1.symm⟩
    · intro htext
      rw [htext, encodeContent_text] at hec
      cases hdec : utf8Decode response.body with
      | none => rw [hdec] at hec; cases hec
      | some s =>
        rw [hdec] at hec
        have := Except.ok.inj hec
        refine ⟨(Prod.mk.inj this).2.symm, ?_, by simp⟩
        exact (Prod.mk.inj this).1.symm
    · have hrange := mediaTypeOf_range hmt
      by_cases htext : req.mediaType = "text"
      · right
        refine ⟨?_, htext⟩
        rw [htext, encodeContent_text] at hec
        cases hdec : utf8Decode response.body with
        | none => rw [hdec] at hec; cases hec
        | some s => rw [hdec] at hec; exact (Prod.mk.inj (Except.ok.inj hec)).2.symm
      · left
        have hbin : req.mediaType ∈ (["image", "video", "audio", "document"] : List String) := by
          simp at hrange
          rcases hrange with h | h | h | h | h <;> simp [h] at htext ⊢
        refine ⟨?_, ?_⟩
        · rw [encodeContent_binary hbin] at hec
          exact (Prod.mk.inj (Except.ok.inj hec)).2.symm
        · simp at hbin ⊢
          tauto
  · intro content_type hct hmt hdec
    have hec : encodeContent "text" response.body =
        .error "UnicodeDecodeError: invalid utf-8" := by
      rw [encodeContent_text, hdec]
    have htb : taskBody env (bucketNameOf task.s3BucketArn) task.s3Key =
        (.error "UnicodeDecodeError: invalid utf-8",
          [.getObject (bucketNameOf task.s3BucketArn) task.s3Key]) := by
      simp [taskBody, hget, hct, hmt, hec]
    have h1 : (taskBody env (bucketNameOf task.s3BucketArn) task.s3Key).1 =
        .error "UnicodeDecodeError: invalid utf-8" := by rw [htb]
    refine ⟨by rw [processTask_error h1], ?_⟩
    intro m req hmem
    rw [processTask_calls, htb] at hmem
    simp at hmem

/-- Concrete world for exercising C7: a valid-utf-8 text object. -/
def envC7 : LambdaEnv :=
  { s3GetObject := fun _ _ => .ok { body := [104, 105], contentType := some "text/plain" },
    guessType := fun _ => none,
    bedrockInvoke := fun _ _ => .ok [3],
    s3vectorsPut := fun _ _ _ => .ok (),
    VECTOR_BUCKET := "vb", VECTOR_INDEX := "vi",
    BEDROCK_MODEL_ID := "m", EMBEDDING_DIMENSION := 1 }

/-- The task of the C7 witness. -/
def taskC7 : Task := { taskId := "t", s3Key := "notes.txt", s3BucketArn := "arn:aws:s3:::src" }

/-- The response object of the C7 witness. -/
def objC7 : S3Object := { body := [104, 105], contentType := some "text/plain" }

/-- C7 at a concrete input. -/
theorem C7_witness :
    envC7.s3GetObject (bucketNameOf taskC7.s3BucketArn) taskC7.s3Key = .ok objC7 ∧
    C7Conclusion envC7 taskC7 objC7 :=
  ⟨rfl, C7_encoding_invariant envC7 taskC7 objC7 rfl⟩

/-! ### C1 -/

/-- What C1 asserts about a downloaded object: the effective MIME type is the
store-reported one unless that is absent (falsy) or one of the two generic
octet-stream values, in which case it is the guess from the key; an
unresolvable type is a `PermanentFailure` with no model call; and the resolved
type maps to a media kind by the fixed precedence table, any unmatched type
being a `PermanentFailure` with no model call. -/
def C1Conclusion (env : LambdaEnv) (task : Task) (response : S3Object) : Prop :=
  ((response.contentType = none ∨ response.contentType = some "" ∨
      response.contentType = some "binary/octet-stream" ∨
      response.contentType = some "application/octet-stream") →
    resolveContentType response.contentType (env.guessType task.s3Key) =
      env.guessType task.s3Key) ∧
  (∀ t, response.contentType = some t → t ≠ "" → t ≠ "binary/octet-stream" →
    t ≠ "application/octet-stream" →
    resolveContentType response.contentType (env.guessType task.s3Key) = some t) ∧
  (resolveContentType response.contentType (env.guessType task.s3Key) = none →
    (processTask env task).1 =
      { taskId := task.taskId, resultCode := "PermanentFailure",
        resultString := "Could not determine data type for " ++ task.s3Key } ∧
    ∀ m req, ServiceCall.invokeModel m req ∉ (processTask env task).2) ∧
  (∀ t, resolveContentType response.contentType (env.guessType task.s3Key) = some t →
    (pyStartswith t "image/" = true → mediaTypeOf t = some "image") ∧
    (pyStartswith t "audio/" = true → mediaTypeOf t = some "audio") ∧
    (pyStartswith t "video/" = true → mediaTypeOf t = some "video") ∧
    (t = "application/pdf" → mediaTypeOf t = some "document") ∧
    (pyStartswith t "text/" = true → mediaTypeOf t = some "text") ∧
    (∀ k, mediaTypeOf t = some k →
      ∀ m req, ServiceCall.invokeModel m req ∈ (processTask env task).2 →
        req.mediaType = k) ∧
    (mediaTypeOf t = none →
      (processTask env task).1 =
        { taskId := task.taskId, resultCode := "PermanentFailure",
          resultString := "Unsupported MIME type: " ++ t } ∧
      ∀ m req, ServiceCall.invokeModel m req ∉ (processTask env task).2))

/-- C1: effective-MIME-type resolution and the media-kind decision table, with
hard failure and no model call for unresolvable and unsupported types. -/
theorem C1_classification (env : LambdaEnv) (task : Task) (response : S3Object)
    (hget : env.s3GetObject (bucketNameOf task.s3BucketArn) task.s3Key = .ok response) :
    C1Conclusion env task response := by
  refine ⟨?_, ?_, ?_, ?_⟩
  · intro h
    unfold resolveContentType
    rw [if_pos h]
  · intro t ht h1 h2 h3
    rw [ht]
    unfold resolveContentType
    rw [if_neg]
    simp [h1, h2, h3]
  · intro hnone
    have htb : taskBody env (bucketNameOf task.s3BucketArn) task.s3Key =
        (.error ("Could not determine data type for " ++ task.s3Key),
          [.getObject (bucketNameOf task.s3BucketArn) task.s3Key]) := by
      simp [taskBody, hget, hnone]
    have h1 : (taskBody env (bucketNameOf task.s3BucketArn) task.s3Key).1 =
        .error ("Could not determine data type for " ++ task.s3Key) := by rw [htb]
    refine ⟨processTask_error h1, ?_⟩
    intro m req hmem
    rw [processTask_calls, htb] at hmem
    simp at hmem
  · intro t hct
    refine ⟨?_, ?_, ?_, ?_, ?_, ?_, ?_⟩
    · intro h
      simp [mediaTypeOf, h]
    · intro h
      have himg : pyStartswith t "image/" = false :=
        pyStartswith_false_of_head_ne (p := "audio/") (q := "image/")
          rfl rfl (by decide) h
      simp [mediaTypeOf, h, himg]
    · intro h
      have himg : pyStartswith t "image/" = false :=
        pyStartswith_false_of_head_ne (p := "video/") (q := "image/")
          rfl rfl (by decide) h
      have haud : pyStartswith t "audio/" = false :=
        pyStartswith_false_of_head_ne (p := "video/") (q := "audio/")
          rfl rfl (by decide) h
      simp [mediaTypeOf, h, himg, haud]
    · intro h
      rw [h]
      decide
    · intro h
      have himg : pyStartswith t "image/" = false :=
        pyStartswith_false_of_head_ne (p := "text/") (q := "image/")
          rfl rfl (by decide) h
      have haud : pyStartswith t "audio/" = false :=
        pyStartswith_false_of_head_ne (p := "text/") (q := "audio/")
          rfl rfl (by decide) h
      have hvid : pyStartswith t "video/" = false :=
        pyStartswith_false_of_head_ne (p := "text/") (q := "video/")
          rfl rfl (by decide) h
      have hpdf : t ≠ "application/pdf" :=
        ne_of_startswith_head (pyStartswith_head (p := "text/") rfl h) rfl (by decide)
      simp [mediaTypeOf, h, himg, haud, hvid, hpdf]
    · intro k hk m req hmem
      rw [processTask_calls] at hmem
      obtain ⟨-, response2, ct, hget2, hct2, hmt, -, -⟩ := invokeModel_mem_taskBody hmem
      rw [hget] at hget2
      have hresp : response = response2 := Except.ok.inj hget2
      subst hresp
      rw [hct] at hct2
      have : t = ct := Option.some.inj hct2
      subst this
      rw [hk] at hmt
      exact (Option.some.inj hmt).symm
    · intro hmt
      have htb : taskBody env (bucketNameOf task.s3BucketArn) task.s3Key =
          (.error ("Unsupported MIME type: " ++ t),
            [.getObject (bucketNameOf task.s3BucketArn) task.s3Key]) := by
        simp [taskBody, hget, hct, hmt]
      have h1 : (taskBody env (bucketNameOf task.s3BucketArn) task.s3Key).1 =
          .error ("Unsupported MIME type: " ++ t) := by rw [htb]
      refine ⟨processTask_error h1, ?_⟩
      intro m req hmem
      rw [processTask_calls, htb] at hmem
      simp at hmem

/-- Concrete world for exercising C1: the store reports the generic
octet-stream type for a `.txt` key, so the guess must be used. -/
def envC1 : LambdaEnv :=
  { s3GetObject := fun _ _ =>
      .ok { body := [104], contentType := some "application/octet-stream" },
    guessType := fun _ => some "text/plain",
    bedrockInvoke := fun _ _ => .ok [1],
    s3vectorsPut := fun _ _ _ => .ok (),
    VECTOR_BUCKET := "vb", VECTOR_INDEX := "vi",
    BEDROCK_MODEL_ID := "m", EMBEDDING_DIMENSION := 1 }

/-- The task of the C1 witness. -/
def taskC1 : Task := { taskId := "t", s3Key := "notes.txt", s3BucketArn := "arn:aws:s3:::src" }

/-- The response object of the C1 witness. -/
def objC1 : S3Object := { body := [104], contentType := some "application/octet-stream" }

/-- C1 at a concrete input. -/
theorem C1_witness :
    envC1.s3GetObject (bucketNameOf taskC1.s3BucketArn) taskC1.s3Key = .ok objC1 ∧
    C1Conclusion envC1 taskC1 objC1 :=
  ⟨rfl, C1_classification envC1 taskC1 objC1 rfl⟩

/-! ### C9: the split used for the bucket name -/

/-- `pySplitAux` always produces at least one segment. -/
lemma pySplitAux_ne_nil (c0 : Char) (sepRest : List Char) :
    ∀ (fuel : Nat) (s cur : List Char), pySplitAux c0 sepRest fuel s cur ≠ [] := by
  intro fuel
  induction fuel with
  | zero => intro s cur; cases s <;> simp [pySplitAux]
  | succ fuel ih =>
    intro s cur
    cases s with
    | nil => simp [pySplitAux]
    | cons c rest =>
      rw [pySplitAux]
      split
      · simp
      · exact ih rest (c :: cur)

/-- `getLastD` of a non-empty list ignores its default. -/
lemma getLastD_default_irrel {α : Type} :
    ∀ (l : List α), l ≠ [] → ∀ (d1 d2 : α), l.getLastD d1 = l.getLastD d2 := by
  intro l
  induction l with
  | nil => intro h; exact absurd rfl h
  | cons a l ih =>
    intro _ d1 d2
    cases l with
    | nil => rfl
    | cons b l2 => simp only [List.getLastD_cons]

/-- A matched candidate is an initial segment of the list. -/
lemma isPrefixOf_decomp :
    ∀ (p l : List Char), p.isPrefixOf l = true → l = p ++ l.drop p.length := by
  intro p
  induction p with
  | nil => intro l _; simp
  | cons a p ih =>
    intro l h
    cases l with
    | nil => simp [List.isPrefixOf] at h
    | cons b l =>
      simp only [List.isPrefixOf, Bool.and_eq_true, beq_iff_eq] at h
      obtain ⟨hab, hp⟩ := h
      simp only [List.length_cons, List.drop_succ_cons]
      rw [hab]
      exact congrArg (b :: ·) (ih l hp)

/-- `takeWhile` over a block that fully satisfies the predicate followed by a
stopper returns exactly the block. -/
lemma takeWhile_append_stop {α : Type} (p : α → Bool) :
    ∀ (xs : List α) (y : α) (ys : List α), (∀ x ∈ xs, p x = true) → p y = false →
      (xs ++ y :: ys).takeWhile p = xs := by
  intro xs
  induction xs with
  | nil => intro y ys _ hy; simp [List.takeWhile_cons, hy]
  | cons x xs ih =>
    intro y ys hall hy
    have hx : p x = true := hall x (by simp)
    simp only [List.cons_append, List.takeWhile_cons, hx, if_true]
    rw [ih y ys (fun z hz => hall z (by simp [hz])) hy]

/-- `takeWhile` never looks past a failing element of the first block. -/
lemma takeWhile_append_left {α : Type} (p : α → Bool) :
    ∀ (xs ys : List α), (∃ x ∈ xs, p x = false) →
      (xs ++ ys).takeWhile p = xs.takeWhile p := by
  intro xs
  induction xs with
  | nil => intro ys h; simp at h
  | cons x xs ih =>
    intro ys h
    cases hx : p x with
    | false => simp [List.takeWhile_cons, hx]
    | true =>
      obtain ⟨z, hz, hpz⟩ := h
      simp only [List.cons_append, List.takeWhile_cons, hx, if_true]
      have hzxs : z ∈ xs := by
        rcases List.mem_cons.mp hz with h1 | h1
        · subst h1; rw [hx] at hpz; cases hpz
        · exact h1
      rw [ih ys ⟨z, hzxs, hpz⟩]

/-- The last segment of a single-character split is the suffix after the last
occurrence of the separator (or the whole remainder when it never occurs). -/
lemma pySplitAux_single_last (c : Char) :
    ∀ (fuel : Nat) (s cur : List Char), s.length ≤ fuel →
      (pySplitAux c [] fuel s cur).getLastD [] =
        if c ∈ s then (s.reverse.takeWhile (fun x => x != c)).reverse
        else cur.reverse ++ s := by
  intro fuel
  induction fuel with
  | zero =>
    intro s cur h
    have : s = [] := List.length_eq_zero.mp (Nat.le_zero.mp h)
    subst this
    simp [pySplitAux]
  | succ fuel ih =>
    intro s cur h
    cases s with
    | nil => simp [pySplitAux]
    | cons a rest =>
      have hrest : rest.length ≤ fuel := by simpa using h
      by_cases hac : a = c
      · subst hac
        have hstep : pySplitAux a [] (fuel + 1) (a :: rest) cur =
            cur.reverse :: pySplitAux a [] fuel rest [] := by
          rw [pySplitAux, if_pos ⟨rfl, by simp [List.isPrefixOf]⟩]
          simp
        rw [hstep, List.getLastD_cons,
          getLastD_default_irrel _ (pySplitAux_ne_nil a [] fuel rest []) cur.reverse [],
          ih rest [] hrest]
        rw [if_pos (List.mem_cons_self a rest)]
        by_cases hmem : a ∈ rest
        · rw [if_pos hmem, List.reverse_cons,
            takeWhile_append_left _ rest.reverse [a] ⟨a, by simp [hmem], by simp⟩]
        · rw [if_neg hmem, List.reverse_cons]
          have hall : ∀ x ∈ rest.reverse, (x != a) = true := by
            intro x hx
            simp only [bne_iff_ne, ne_eq]
            intro hxa; subst hxa; exact hmem (List.mem_reverse.mp hx)
          rw [takeWhile_append_stop (fun x => x != a) rest.reverse a [] hall (by simp),
            List.reverse_reverse]
          simp
      · have hstep : pySplitAux c [] (fuel + 1) (a :: rest) cur =
            pySplitAux c [] fuel rest (a :: cur) := by
          rw [pySplitAux, if_neg (by simp [hac])]
        rw [hstep, ih rest (a :: cur) hrest]
        by_cases hmem : c ∈ rest
        · rw [if_pos hmem, if_pos (List.mem_cons_of_mem a hmem), List.reverse_cons,
            takeWhile_append_left _ rest.reverse [a] ⟨c, by simp [hmem], by simp⟩]
        · have hnc : c ∉ a :: rest := by
            intro hin
            rcases List.mem_cons.mp hin with h1 | h1
            · exact hac h1.symm
            · exact hmem h1
          rw [if_neg hmem, if_neg hnc]
          simp

/-- The last segment of a split either is the whole remaining input (no
separator occurrence) or is preceded in the input by a separator occurrence. -/
lemma pySplitAux_last_decomp (c0 : Char) (sepRest : List Char) :
    ∀ (fuel : Nat) (s cur : List Char), s.length ≤ fuel →
      (pySplitAux c0 sepRest fuel s cur).getLastD [] = cur.reverse ++ s ∨
      ∃ p, s = p ++ (c0 :: sepRest) ++ (pySplitAux c0 sepRest fuel s cur).getLastD [] := by
  intro fuel
  induction fuel with
  | zero =>
    intro s cur h
    have : s = [] := List.length_eq_zero.mp (Nat.le_zero.mp h)
    subst this
    simp [pySplitAux]
  | succ fuel ih =>
    intro s cur h
    cases s with
    | nil => simp [pySplitAux]
    | cons c rest =>
      have hrest : rest.length ≤ fuel := by simpa using h
      by_cases hcond : c = c0 ∧ sepRest.isPrefixOf rest
      · obtain ⟨hc, hpre⟩ := hcond
        subst hc
        have hstep : pySplitAux c sepRest (fuel + 1) (c :: rest) cur =
            cur.reverse :: pySplitAux c sepRest fuel (rest.drop sepRest.length) [] := by
          rw [pySplitAux, if_pos ⟨rfl, hpre⟩]
        have hdrop : (rest.drop sepRest.length).length ≤ fuel := by
          rw [List.length_drop]; omega
        have hrestdec : rest = sepRest ++ rest.drop sepRest.length := isPrefixOf_decomp _ _ hpre
        rw [hstep, List.getLastD_cons,
          getLastD_default_irrel _ (pySplitAux_ne_nil c sepRest fuel _ []) cur.reverse []]
        rcases ih (rest.drop sepRest.length) [] hdrop with hL | ⟨p, hp⟩
        · simp only [List.reverse_nil, List.nil_append] at hL
          right
          refine ⟨[], ?_⟩
          rw [hL]
          simp only [List.nil_append, List.cons_append]
          rw [← hrestdec]
        · right
          refine ⟨(c :: sepRest) ++ p, ?_⟩
          conv_lhs => rw [hrestdec, hp]
          simp [List.append_assoc]
      · have hstep : pySplitAux c0 sepRest (fuel + 1) (c :: rest) cur =
            pySplitAux c0 sepRest fuel rest (c :: cur) := by
          rw [pySplitAux, if_neg hcond]
        rw [hstep]
        rcases ih rest (c :: cur) hrest with hL | ⟨p, hp⟩
        · left
          rw [hL]
          simp
        · right
          refine ⟨c :: p, ?_⟩
          conv_lhs => rw [hp]
          simp [List.append_assoc]

/-- When the last `:::`-segment contains no colon, it coincides with the last
single-colon segment. -/
lemma pySplit_single_eq_triple (s : List Char)
    (h : ∀ x ∈ (pySplit ':' [':', ':'] s).getLastD [], x ≠ ':') :
    (pySplit ':' [] s).getLastD [] = (pySplit ':' [':', ':'] s).getLastD [] := by
  unfold pySplit at h ⊢
  rcases pySplitAux_last_decomp ':' [':', ':'] s.length s [] le_rfl with hL | ⟨p, hp⟩
  · simp only [List.reverse_nil, List.nil_append] at hL
    have hnc : ':' ∉ s := by
      intro hmem
      refine h ':' ?_ rfl
      rw [hL]
      exact hmem
    rw [pySplitAux_single_last ':' s.length s [] le_rfl, if_neg hnc, hL]
    simp
  · have hmem : ':' ∈ s := by rw [hp]; simp
    rw [pySplitAux_single_last ':' s.length s [] le_rfl, if_pos hmem]
    have hrev : s.reverse =
        ((pySplitAux ':' [':', ':'] s.length s []).getLastD []).reverse ++
          ':' :: (':' :: ':' :: p.reverse) := by
      conv_lhs => rw [hp]
      simp [List.reverse_append, List.append_assoc]
    have hall : ∀ x ∈ ((pySplitAux ':' [':', ':'] s.length s []).getLastD []).reverse,
        (x != ':') = true := by
      intro x hx
      simp only [bne_iff_ne, ne_eq]
      exact h x (List.mem_reverse.mp hx)
    rw [hrev, takeWhile_append_stop (fun x => x != ':') _ ':' (':' :: ':' :: p.reverse)
      hall (by simp), List.reverse_reverse]

/-- Stated from the claim's words, not from the code: the final colon-delimited
segment of a reference, i.e. Python `s.split(':')[-1]`. -/
def finalColonSegment (s : String) : String :=
  String.mk ((pySplit ':' [] s.toList).getLastD [])

/-- C9: the bucket used for the download and recorded as `source_bucket`
metadata is `bucketNameOf` of the task's `s3BucketArn`; and for any ARN-like
reference — one whose final `:::`-segment contains no colon, as every valid
bucket ARN does — that value is the final colon-delimited segment of the
reference. -/
theorem C9_container_name (env : LambdaEnv) (task : Task)
    (hvalid : ∀ x ∈ (pySplit ':' [':', ':'] task.s3BucketArn.toList).getLastD [],
      x ≠ ':') :
    (∀ b k, ServiceCall.getObject b k ∈ (processTask env task).2 →
      b = bucketNameOf task.s3BucketArn ∧ k = task.s3Key) ∧
    (∀ b i v, ServiceCall.putVectors b i v ∈ (processTask env task).2 →
      v.source_bucket = bucketNameOf task.s3BucketArn) ∧
    bucketNameOf task.s3BucketArn = finalColonSegment task.s3BucketArn := by
  refine ⟨?_, ?_, ?_⟩
  · intro b k hmem
    rw [processTask_calls] at hmem
    exact getObject_mem_taskBody hmem
  · intro b i v hmem
    rw [processTask_calls] at hmem
    obtain ⟨-, -, -, hsrc, -, -⟩ := putVectors_mem_taskBody hmem
    exact hsrc
  · unfold bucketNameOf finalColonSegment
    rw [pySplit_single_eq_triple task.s3BucketArn.toList hvalid]

/-- Concrete world for exercising C9. -/
def envC9 : LambdaEnv :=
  { s3GetObject := fun _ _ => .ok { body := [104], contentType := some "text/plain" },
    guessType := fun _ => none,
    bedrockInvoke := fun _ _ => .ok [2],
    s3vectorsPut := fun _ _ _ => .ok (),
    VECTOR_BUCKET := "vb", VECTOR_INDEX := "vi",
    BEDROCK_MODEL_ID := "m", EMBEDDING_DIMENSION := 1 }

/-- The task of the C9 witness, with a standard bucket ARN. -/
def taskC9 : Task := { taskId := "t", s3Key := "a.txt", s3BucketArn := "arn:aws:s3:::src" }

/-- C9 at a concrete input. -/
theorem C9_witness :
    (∀ x ∈ (pySplit ':' [':', ':'] taskC9.s3BucketArn.toList).getLastD [], x ≠ ':') ∧
    ((∀ b k, ServiceCall.getObject b k ∈ (processTask envC9 taskC9).2 →
      b = bucketNameOf taskC9.s3BucketArn ∧ k = taskC9.s3Key) ∧
    (∀ b i v, ServiceCall.putVectors b i v ∈ (processTask envC9 taskC9).2 →
      v.source_bucket = bucketNameOf taskC9.s3BucketArn) ∧
    bucketNameOf taskC9.s3BucketArn = finalColonSegment taskC9.s3BucketArn) :=
  ⟨by decide, C9_container_name envC9 taskC9 (by decide)⟩

end NovaEmbed

